import Mathlib

/-!
Shallow embedding of the `web` static-site server (Go) and proofs about its
middleware pipeline, logging, security headers, request gating, certificate
times and static-file handlers.

Conventions of the embedding:
* A response writer is modelled by the `Resp` state record; a handler is a
  state transformer `Request → Resp → Resp` (Go `http.Handler.ServeHTTP`).
* Header maps (`http.Header`) are modelled as functions `String → Option String`;
  `Header.Set` overwrites, `Header.Get` reads.
* `WriteHeader` calls are accumulated in `Resp.statusHist` so that "writes a
  status exactly once" is expressible.
* Invocations of the standard-library static file server
  (`http.FileServer(...).ServeHTTP`) are recorded in `Resp.served`.
* Wall-clock instants and `time.Duration` are integers counting nanoseconds,
  as in Go's `time` package; Go's `int64` division truncates toward zero,
  which is `Int.tdiv`.
-/

namespace Web

/-- The fields of Go's `url.URL` that this program touches. A URL parsed from a
server request line has empty `scheme` and `host`. -/
structure GoURL where
  scheme : String
  host : String
  path : String
  rawQuery : String
deriving DecidableEq

/-- `url.URL.String` restricted to the four fields above, following the Go
implementation: writes `scheme:`, then `//host` when a host or (given a scheme
or host) a path is present, then the path (adding `/` between a host and a
relative path), then `?rawQuery`. -/
def urlString (u : GoURL) : String :=
  let s1 := if u.scheme = "" then "" else u.scheme ++ ":"
  let s2 :=
    if (u.scheme ≠ "" ∨ u.host ≠ "") ∧ (u.host ≠ "" ∨ u.path ≠ "") then
      s1 ++ "//" ++ u.host
    else s1 ++ u.host
  let s3 :=
    if u.path ≠ "" ∧ u.path.toList.head? ≠ some '/' ∧ u.host ≠ "" then
      s2 ++ "/" ++ u.path
    else s2 ++ u.path
  if u.rawQuery = "" then s3 else s3 ++ "?" ++ u.rawQuery

/-- The fields of `http.Request` that the middleware reads. `tls = true` models
`r.TLS ≠ nil` (the request arrived over a TLS connection). `headers` models the
request header map, with `headerGet` below as `Header.Get` (returning `""` when
absent, as in Go). -/
structure Request where
  method : String
  url : GoURL
  host : String
  tls : Bool
  proto : String
  headers : List (String × String)
  userAgent : String
  referer : String
  basicAuth : Option (String × String)
  remoteAddr : String
deriving DecidableEq

/-- `http.Request.Header.Get`: first value for the name, or `""`. -/
def headerGet (r : Request) (name : String) : String :=
  match r.headers.find? (fun p => p.1 = name) with
  | some p => p.2
  | none => ""

/-- A line emitted through the process logger (or stdout) by the
panic-recovery middleware. `panicLog` carries the recovered value and the
request whose context is printed alongside it; `stackTrace` is the
`debug.Stack` dump printed to stdout. -/
inductive LogEvent where
  | panicLog (recovered : String) (req : Request)
  | stackTrace
deriving DecidableEq

/-- The observable state of a response writer plus the side channels a handler
can write to: response headers, the sequence of `WriteHeader` calls, the bytes
of the body, the paths handed to the static file server, and log output. -/
structure Resp where
  headers : String → Option String
  statusHist : List Nat
  body : String
  served : List String
  log : List LogEvent

/-- A response writer on which nothing has happened yet. -/
def Resp.empty : Resp :=
  { headers := fun _ => none, statusHist := [], body := "", served := [], log := [] }

/-- `http.Header.Set` on the response writer: replaces the value for a name. -/
def setHeader (w : Resp) (name value : String) : Resp :=
  { w with headers := fun k => if k = name then some value else w.headers k }

/-- `http.Header.Get` on the response writer. -/
def getHeader (w : Resp) (name : String) : Option String :=
  w.headers name

/-- `ResponseWriter.WriteHeader`. -/
def writeHeader (w : Resp) (code : Nat) : Resp :=
  { w with statusHist := w.statusHist ++ [code] }

/-- `http.StatusText` for the codes this program mentions. -/
def statusText (code : Nat) : String :=
  match code with
  | 200 => "OK"
  | 301 => "Moved Permanently"
  | 404 => "Not Found"
  | 405 => "Method Not Allowed"
  | 414 => "Request URI Too Long"
  | 500 => "Internal Server Error"
  | _ => ""

/-- `http.Error(w, msg, code)`: sets the plain-text content type and
`X-Content-Type-Options: nosniff`, writes the status, then prints `msg` and a
newline to the body. -/
def httpError (w : Resp) (msg : String) (code : Nat) : Resp :=
  let w := setHeader w "Content-Type" "text/plain; charset=utf-8"
  let w := setHeader w "X-Content-Type-Options" "nosniff"
  let w := writeHeader w code
  { w with body := w.body ++ msg ++ "\n" }

/-- `http.NotFound(w, r)`, i.e. `http.Error(w, "404 page not found", 404)`. -/
def notFound (w : Resp) : Resp :=
  httpError w "404 page not found" 404

/-- `http.Redirect(w, r, url, code)`: sets `Location`, and for GET requests
sets an HTML content type, writes the status, and for GET requests writes the
small HTML body. -/
def redirect (r : Request) (w : Resp) (url : String) (code : Nat) : Resp :=
  let w := setHeader w "Location" url
  let w := if r.method = "GET" then
    setHeader w "Content-Type" "text/html; charset=utf-8" else w
  let w := writeHeader w code
  if r.method = "GET" then
    { w with body := w.body ++ "<a href=\"" ++ url ++ "\">" ++ statusText code ++ "</a>.\n\n" }
  else w

/-- `http.Handler`, as a response-state transformer. -/
abbrev Handler : Type := Request → Resp → Resp

/-- `type Middleware func(http.Handler) http.Handler`. -/
abbrev Middleware : Type := Handler → Handler

/-- `Apply(m...)`: the Go loop `for i := range m { h = m[len(m)-1-i](h) }`,
written as a fold over the loop indices `0, …, len(m)-1`. -/
def Apply (m : List Middleware) : Middleware :=
  fun h =>
    (List.range m.length).foldl (fun acc i => (m.getD (m.length - 1 - i) id) acc) h

lemma foldl_congr_mem {α β : Type} (l : List β) (f g : α → β → α) (a : α)
    (H : ∀ acc, ∀ b ∈ l, f acc b = g acc b) : l.foldl f a = l.foldl g a := by
  induction l generalizing a with
  | nil => rfl
  | cons x xs ih =>
    simp only [List.foldl_cons]
    rw [H a x (by simp)]
    exact ih _ (fun acc b hb => H acc b (by simp [hb]))

/-- C1. `Apply(m1, m2, …, mn)(h)` behaves as `m1(m2(...mn(h)))`: the loop of
`Apply` equals the right fold that wraps the base handler with the listed
middlewares, last one innermost, so the first middleware listed is outermost —
it receives the request first on the way in and regains control last on the
way out. -/
theorem Apply_composes (m : List Middleware) (h : Handler) :
    Apply m h = m.foldr (fun mw k => mw k) h := by
  induction m generalizing h with
  | nil => rfl
  | cons x rest ih =>
    unfold Apply
    simp only [List.length_cons, List.range_succ, List.foldl_append,
      List.foldl_cons, List.foldl_nil]
    have hzero : rest.length + 1 - 1 - rest.length = 0 := by omega
    rw [hzero, List.getD_cons_zero]
    have hcongr :
        (List.range rest.length).foldl
            (fun acc i => ((x :: rest).getD (rest.length + 1 - 1 - i) id) acc) h
          = (List.range rest.length).foldl
            (fun acc i => (rest.getD (rest.length - 1 - i) id) acc) h := by
      refine foldl_congr_mem _ _ _ _ ?_
      intro acc i hi
      have hlt : i < rest.length := List.mem_range.mp hi
      have hidx : rest.length + 1 - 1 - i = (rest.length - 1 - i) + 1 := by omega
      rw [hidx, List.getD_cons_succ]
    rw [hcongr]
    have := ih h
    unfold Apply at this
    rw [this]
    rfl

/-! ## Security headers (`SecureHeaders`) and the method/length gate
(`AcceptHeaders`) -/

def cspNone : String := "'none'"

def cspSelf : String := "'self'"

/-- The `csp` directive map, as (key, values) pairs. -/
def csp : List (String × List String) :=
  [("default-src", [cspNone]),
   ("base-uri", [cspNone]),
   ("font-src", [cspSelf]),
   ("form-action", [cspNone]),
   ("frame-ancestors", [cspNone]),
   ("img-src", [cspSelf]),
   ("style-src", [cspSelf])]

/-- `DefaultCSP` after `init` ran: each directive rendered as `"key values"`,
sorted, joined with `";"`. -/
def DefaultCSP : String :=
  String.intercalate ";"
    ((csp.map (fun kv => kv.1 ++ " " ++ String.intercalate " " kv.2)).mergeSort
      (fun a b => a ≤ b))

/-- The `hostList` allow-list of host names. -/
def hostList : List String := ["blog.bwsd.net", "bwsd.net", "www.bwsd.net"]

/-- The handler transformer returned by `SecureHeaders()`: lower-cases and
allow-list-checks the host (substituting `"bwsd.net"`), redirects plaintext
requests to the `https` URL with status 301 and stops, and otherwise sets the
six security headers before invoking the wrapped handler. -/
def SecureHeaders : Middleware := fun h r w =>
  let host0 := r.host.toLower
  let _host := if hostList.contains host0 then host0 else "bwsd.net"
  if r.tls = false ∨ r.url.scheme = "http" then
    redirect r w (urlString { r.url with scheme := "https" }) 301
  else
    let w := setHeader w "Strict-Transport-Security"
      "max-age=63072000; includeSubDomains; preload"
    let w := setHeader w "Content-Security-Policy" DefaultCSP
    let w := setHeader w "X-Frame-Options" "Deny"
    let w := setHeader w "Permissions-Policy" "interest-cohort=()"
    let w := setHeader w "X-Content-Type-Options" "nosniff"
    let w := setHeader w "Referrer-Policy" "same-origin"
    h r w

/-- The six security headers `SecureHeaders` sets on TLS responses. -/
def securityHeaderNames : List String :=
  ["Strict-Transport-Security", "Content-Security-Policy", "X-Frame-Options",
   "Permissions-Policy", "X-Content-Type-Options", "Referrer-Policy"]

lemma getHeader_setHeader_ne (w : Resp) (n v name : String) (h : name ≠ n) :
    getHeader (setHeader w n v) name = getHeader w name := by
  simp [getHeader, setHeader, h]

lemma getHeader_writeHeader (w : Resp) (c : Nat) (name : String) :
    getHeader (writeHeader w c) name = getHeader w name := rfl

lemma getHeader_redirect_ne (r : Request) (w : Resp) (u : String) (c : Nat)
    (name : String) (h1 : name ≠ "Location") (h2 : name ≠ "Content-Type") :
    getHeader (redirect r w u c) name = getHeader w name := by
  unfold redirect
  by_cases hm : r.method = "GET" <;>
    simp [hm, getHeader, setHeader, writeHeader, h1, h2]

lemma getHeader_redirect_loc (r : Request) (w : Resp) (u : String) (c : Nat) :
    getHeader (redirect r w u c) "Location" = some u := by
  unfold redirect
  by_cases hm : r.method = "GET" <;>
    simp [hm, getHeader, setHeader, writeHeader]

lemma redirect_statusHist (r : Request) (w : Resp) (u : String) (c : Nat) :
    (redirect r w u c).statusHist = w.statusHist ++ [c] := by
  unfold redirect
  by_cases hm : r.method = "GET" <;> simp [hm, setHeader, writeHeader]

/-- C2. For every request that did not arrive over TLS, `SecureHeaders`
responds with a single 301 `WriteHeader` whose `Location` is the request URL
with its scheme replaced by `https`, leaves each of the six security headers
exactly as it found them, and produces the same response whatever the wrapped
handler is (the downstream handler is never invoked). -/
theorem SecureHeaders_plaintext_redirect (h : Handler) (r : Request) (w : Resp)
    (htls : r.tls = false) :
    (SecureHeaders h r w).statusHist = w.statusHist ++ [301]
    ∧ getHeader (SecureHeaders h r w) "Location"
        = some (urlString { r.url with scheme := "https" })
    ∧ (∀ name ∈ securityHeaderNames,
        getHeader (SecureHeaders h r w) name = getHeader w name)
    ∧ (∀ h2 : Handler, SecureHeaders h2 r w = SecureHeaders h r w) := by
  have hcond : (r.tls = false ∨ r.url.scheme = "http") := Or.inl htls
  have hred : ∀ h2 : Handler,
      SecureHeaders h2 r w
        = redirect r w (urlString { r.url with scheme := "https" }) 301 := by
    intro h2
    unfold SecureHeaders
    simp only [if_pos hcond]
  refine ⟨?_, ?_, ?_, ?_⟩
  · rw [hred h]; exact redirect_statusHist r w _ 301
  · rw [hred h]; exact getHeader_redirect_loc r w _ 301
  · intro name hname
    rw [hred h]
    fin_cases hname <;>
      exact getHeader_redirect_ne r w _ 301 _ (by decide) (by decide)
  · intro h2; rw [hred h2, hred h]

/-- A base handler that returns the response state unchanged. -/
def idHandler : Handler := fun _ w => w

/-- A plaintext GET request for `/index.html` on an allow-listed host. -/
def plainReq : Request :=
  { method := "GET"
    url := { scheme := "", host := "", path := "/index.html", rawQuery := "" }
    host := "bwsd.net"
    tls := false
    proto := "HTTP/1.1"
    headers := []
    userAgent := ""
    referer := ""
    basicAuth := none
    remoteAddr := "203.0.113.7:52044" }

/-- Witness for C2 at a concrete plaintext request. -/
theorem SecureHeaders_plaintext_redirect_witness :
    plainReq.tls = false
    ∧ ((SecureHeaders idHandler plainReq Resp.empty).statusHist
          = Resp.empty.statusHist ++ [301]
        ∧ getHeader (SecureHeaders idHandler plainReq Resp.empty) "Location"
            = some (urlString { plainReq.url with scheme := "https" })
        ∧ (∀ name ∈ securityHeaderNames,
            getHeader (SecureHeaders idHandler plainReq Resp.empty) name
              = getHeader Resp.empty name)
        ∧ (∀ h2 : Handler,
            SecureHeaders h2 plainReq Resp.empty
              = SecureHeaders idHandler plainReq Resp.empty)) :=
  ⟨rfl, SecureHeaders_plaintext_redirect idHandler plainReq Resp.empty rfl⟩

/-- `maxURILen`. -/
def maxURILen : Nat := 512

/-- `DefaultAllowedMethods`. -/
def DefaultAllowedMethods : List String := ["GET", "HEAD", "OPTIONS"]

/-- The handler transformer returned by `AcceptHeaders(m...)`, mirroring the
source: requests whose serialized URL reaches `maxURILen` get a 414; then `m`
is replaced by `DefaultAllowedMethods` when empty, but the membership loop that
follows ranges over `DefaultAllowedMethods` rather than `m`, so the caller's
list never influences the decision. -/
def AcceptHeaders (m : List String) : Middleware := fun h r w =>
  if (urlString r.url).length ≥ maxURILen then
    httpError w (statusText 414) 414
  else
    let _m := if m = [] then DefaultAllowedMethods else m
    if DefaultAllowedMethods.contains r.method then h r w
    else httpError w (statusText 405) 405

/-- A POST request with a short URL. -/
def postReq : Request :=
  { method := "POST"
    url := { scheme := "", host := "", path := "/x", rawQuery := "" }
    host := "bwsd.net"
    tls := true
    proto := "HTTP/1.1"
    headers := []
    userAgent := ""
    referer := ""
    basicAuth := none
    remoteAddr := "203.0.113.7:52044" }

/-- A handler that marks the response, to observe whether it was invoked. -/
def markHandler : Handler := fun _ w => setHeader w "X-Downstream" "1"

/-- C5 (code bug). `AcceptHeaders("POST")` still rejects a short-URL POST
request with 405 and never invokes the downstream handler: the caller-supplied
allow-list is ignored because the loop ranges over `DefaultAllowedMethods`. -/
theorem AcceptHeaders_ignores_override :
    (AcceptHeaders ["POST"] markHandler postReq Resp.empty).statusHist = [405]
    ∧ getHeader (AcceptHeaders ["POST"] markHandler postReq Resp.empty)
        "X-Downstream" = none := by
  constructor <;> decide

/-! ## Panic recovery (`Recover`)

A downstream handler that may panic is modelled as returning `Except`: `.ok`
is normal completion, `.error (v, w)` is a panic with recovered value `v`
raised when the response state was `w`. `Recover` turns such a handler into a
total one, which is exactly what the deferred `recover()` does: the panic
never propagates past it. -/

/-- An `http.Handler` whose `ServeHTTP` may panic. -/
abbrev PHandler : Type := Request → Resp → Except (String × Resp) Resp

/-- `Recover(next)`: serve the request; if `next` panicked, write the generic
500 error (`http.Error(w, StatusText(500), 500)`), log the recovered value
together with the request context, and print the stack trace — then return
normally. -/
def Recover (next : PHandler) : Handler := fun r w =>
  match next r w with
  | .ok w2 => w2
  | .error (v, w2) =>
    let w3 := httpError w2 (statusText 500) 500
    { w3 with log := w3.log ++ [LogEvent.panicLog v r, LogEvent.stackTrace] }

/-- C3. If the downstream panics with recovered value `v` at response state
`w2`, the handler built by `Recover` (a total function: the panic is never
re-raised) appends exactly one 500 `WriteHeader` and the generic status text
to what the downstream had produced, and appends a log event carrying the
recovered value and the request; and on any request the downstream completes
normally, `Recover` is transparent, so later requests are served unchanged. -/
theorem Recover_contains_panic (next : PHandler) (r : Request) (w : Resp)
    (v : String) (w2 : Resp) (hp : next r w = .error (v, w2)) :
    (Recover next r w).statusHist = w2.statusHist ++ [500]
    ∧ (Recover next r w).body = w2.body ++ statusText 500 ++ "\n"
    ∧ (Recover next r w).log
        = w2.log ++ [LogEvent.panicLog v r, LogEvent.stackTrace]
    ∧ ∀ (r2 : Request) (w3 w4 : Resp),
        next r2 w3 = .ok w4 → Recover next r2 w3 = w4 := by
  refine ⟨?_, ?_, ?_, ?_⟩
  · simp [Recover, hp, httpError, setHeader, writeHeader]
  · simp [Recover, hp, httpError, setHeader, writeHeader]
  · simp [Recover, hp, httpError, setHeader, writeHeader]
  · intro r2 w3 w4 hok
    simp [Recover, hok]

/-- A downstream that panics on requests with method `"PANIC"` and completes
normally otherwise. -/
def panickyNext : PHandler := fun r w =>
  if r.method = "PANIC" then Except.error ("boom", w)
  else Except.ok (writeHeader w 200)

/-- A request that makes `panickyNext` panic. -/
def panicReq : Request :=
  { method := "PANIC"
    url := { scheme := "", host := "", path := "/p", rawQuery := "" }
    host := "bwsd.net"
    tls := true
    proto := "HTTP/1.1"
    headers := []
    userAgent := ""
    referer := ""
    basicAuth := none
    remoteAddr := "203.0.113.7:52044" }

/-- Witness for C3 at a concrete panicking downstream. -/
theorem Recover_contains_panic_witness :
    (Recover panickyNext panicReq Resp.empty).statusHist
        = Resp.empty.statusHist ++ [500]
    ∧ (Recover panickyNext panicReq Resp.empty).body
        = Resp.empty.body ++ statusText 500 ++ "\n"
    ∧ (Recover panickyNext panicReq Resp.empty).log
        = Resp.empty.log ++ [LogEvent.panicLog "boom" panicReq, LogEvent.stackTrace]
    ∧ ∀ (r2 : Request) (w3 w4 : Resp),
        panickyNext r2 w3 = Except.ok w4 → Recover panickyNext r2 w3 = w4 :=
  Recover_contains_panic panickyNext panicReq Resp.empty "boom" Resp.empty rfl

/-! ## Correlation identifiers and the access-logging middleware (`Log`)

The downstream of `Log` is modelled by the sequence of response-writer
operations it performs (`WriteHeader` and `Write` calls), so that the
`statusRecorder` wrapper can be modelled faithfully: the wrapper overrides
`WriteHeader` (recording the code before forwarding it) but does **not**
override `Write`, so `Write` calls reach the embedded writer directly via
method promotion and the wrapper's `size` field is never updated. -/

/-- `type UUID [16]byte`, as its list of byte values. -/
abbrev UUID : Type := List Nat

/-- The all-zero value a `var uuid UUID` declaration starts with. -/
def zeroUUID : UUID := List.replicate 16 0

/-- `NewV4UUID` on the 16 bytes read from the random source: forces the
version nibble (byte 6) to `0100` and the variant bits (byte 8) to `10`. -/
def NewV4UUID (bytes : List Nat) : UUID :=
  let u := bytes.set 6 ((bytes.getD 6 0) &&& 0x0f ||| 0x40)
  u.set 8 ((u.getD 8 0) &&& 0x3f ||| 0x80)

/-- Lower-case hex digit of a value below 16 (as in Go's `encoding/hex`). -/
def hexDigit (n : Nat) : Char :=
  if n < 10 then Char.ofNat (48 + n) else Char.ofNat (87 + n)

/-- Two-digit lower-case hex rendering of one byte. -/
def byteHex (b : Nat) : String :=
  String.mk [hexDigit (b / 16 % 16), hexDigit (b % 16)]

/-- `hex.Encode` of a byte slice. -/
def hexEnc (bs : List Nat) : String :=
  String.join (bs.map byteHex)

/-- `UUID.String()`: canonical 8-4-4-4-12 hyphenated lower-case hex form. -/
def uuidString (u : UUID) : String :=
  hexEnc (u.take 4) ++ "-" ++ hexEnc ((u.drop 4).take 2) ++ "-"
    ++ hexEnc ((u.drop 6).take 2) ++ "-" ++ hexEnc ((u.drop 8).take 2) ++ "-"
    ++ hexEnc (u.drop 10)

/-- `NewRequestContext`, returning the `UUID` the new context carries under
the `"uuid"` key. The source declares `var uuid UUID` (all zeros) and
overwrites it with a fresh random V4 UUID only when the request has no
`"uuid"` header; when the header is present the branch is skipped and the
zero value is stored — the header's string value itself is never parsed or
stored. `rnd` is the byte sequence the random source would deliver. -/
def NewRequestContext (rnd : List Nat) (r : Request) : UUID :=
  if headerGet r "uuid" = "" then NewV4UUID rnd else zeroUUID

/-- `net.SplitHostPort`, host part: everything before the last colon, or an
error (`none`) when there is no colon. (Bracketed IPv6 literals are not
modelled; no claim depends on them.) -/
def splitHostPort (s : String) : Option String :=
  let cs := s.toList
  if cs.contains ':' then
    some (String.mk ((cs.reverse.dropWhile (fun c => c ≠ ':')).drop 1).reverse)
  else none

/-- `CLFEntry`: one combined-log-format access-log record. -/
structure CLFEntry where
  addr : String
  userID : String
  ident : String
  ts : Int
  method : String
  path : String
  proto : String
  status : Nat
  size : Nat
  ua : String
  referrer : String
deriving DecidableEq

/-- `NewCLFEntry(r, uuid)` stamped with the current time `now`: placeholders
`"-"`, then user agent, referrer, basic-auth user and client address filled in
from the request when present. -/
def NewCLFEntry (r : Request) (uuid : UUID) (now : Int) : CLFEntry :=
  { addr := match splitHostPort r.remoteAddr with
      | some a => a
      | none => "-"
    userID := match r.basicAuth with
      | some p => p.1
      | none => "-"
    ident := uuidString uuid
    ts := now
    method := r.method
    path := r.url.path
    proto := r.proto
    status := 0
    size := 0
    ua := if r.userAgent = "" then "-" else r.userAgent
    referrer := if r.referer = "" then "-" else r.referer }

/-- `statusRecorder`: the response-writer wrapper `Log` installs. Only its own
mutable fields are kept here; the embedded `http.ResponseWriter` is the
separate `UnderWriter` state. -/
structure statusRecorder where
  status : Nat
  size : Nat
deriving DecidableEq

/-- The wrapped (embedded) response writer's observable state. -/
structure UnderWriter where
  statusHist : List Nat
  bytes : Nat
deriving DecidableEq

/-- One call a downstream handler makes on its response writer. -/
inductive WOp where
  | writeHeader (code : Nat)
  | write (n : Nat)
deriving DecidableEq

/-- A downstream handler, as the writer calls it performs on a request. -/
abbrev OpsHandler : Type := Request → List WOp

/-- Effect of one writer call on the `statusRecorder` and the wrapped writer.
`WriteHeader` is the method the wrapper overrides: it records the code and
forwards. `Write` is not overridden, so it is the promoted method of the
embedded writer: the bytes reach the wrapped writer and the wrapper's `size`
field stays as it was. -/
def recStep : statusRecorder × UnderWriter → WOp → statusRecorder × UnderWriter
  | (rec, un), WOp.writeHeader c =>
      ({ rec with status := c }, { un with statusHist := un.statusHist ++ [c] })
  | (rec, un), WOp.write n => (rec, { un with bytes := un.bytes + n })

/-- Run a downstream's writer calls against the wrapper. -/
def runOps (s : statusRecorder × UnderWriter) (ops : List WOp) :
    statusRecorder × UnderWriter :=
  ops.foldl recStep s

/-- What one execution of the `Log` middleware produces: the finished log
entry, whether the slow-request warning fired, and the wrapped writer's final
state. -/
structure LogResult where
  entry : CLFEntry
  slow : Bool
  under : UnderWriter
deriving DecidableEq

/-- The `Log` middleware. `rnd` is the byte sequence the random source would
deliver; `t0` is the clock at entry (the entry's timestamp) and `t1` the clock
after the downstream returns. After running the downstream against a fresh
`statusRecorder{w, 200, 0}`, the entry's status and size are copied from the
recorder, the line is emitted, and the slow-request warning fires when
`took/1000 >= 200` for the `time.Duration` (nanoseconds, truncated division)
`took = t1 - t0`. -/
def Log (rnd : List Nat) (t0 t1 : Int) (next : OpsHandler) (r : Request) :
    LogResult :=
  let uuid := NewRequestContext rnd r
  let wr : statusRecorder := { status := 200, size := 0 }
  let l := NewCLFEntry r uuid t0
  let res := runOps (wr, { statusHist := [], bytes := 0 }) (next r)
  let l := { l with status := res.1.status, size := res.1.size }
  let took := t1 - t0
  { entry := l, slow := decide (Int.tdiv took 1000 ≥ 200), under := res.2 }

/-- A downstream that performs no writer calls at all. -/
def silentNext : OpsHandler := fun _ => []

/-- A fixed 16-byte output of the random source. -/
def someRnd : List Nat := List.replicate 16 171

/-- A request that carries its own correlation identifier header. -/
def tracedReq : Request :=
  { method := "GET"
    url := { scheme := "", host := "", path := "/traced", rawQuery := "" }
    host := "bwsd.net"
    tls := true
    proto := "HTTP/1.1"
    headers := [("uuid", "deadbeef-dead-beef-dead-beefdeadbeef")]
    userAgent := ""
    referer := ""
    basicAuth := none
    remoteAddr := "203.0.113.7:52044" }

/-- C4 (code bug). A request supplying its own `"uuid"` header is logged with
the all-zero identifier, not with the supplied value: `NewRequestContext`
skips generation when the header is present but never stores the header's
value, so the context keeps the zero `UUID`. -/
theorem Log_ignores_supplied_uuid :
    headerGet tracedReq "uuid" = "deadbeef-dead-beef-dead-beefdeadbeef"
    ∧ NewRequestContext someRnd tracedReq = zeroUUID
    ∧ (Log someRnd 0 0 silentNext tracedReq).entry.ident
        = "00000000-0000-0000-0000-000000000000"
    ∧ (Log someRnd 0 0 silentNext tracedReq).entry.ident
        ≠ "deadbeef-dead-beef-dead-beefdeadbeef" := by
  refine ⟨by decide, by decide, by decide, by decide⟩

/-- C6 (code bug). A request that took 1ms — far below the intended 200ms
threshold — already triggers the slow-request warning: the source divides the
nanosecond duration by 1000 (yielding microseconds) and compares the result
against 200, so the warning fires from 200µs of elapsed time onward. -/
theorem Log_slow_warning_fires_at_200us :
    (Log someRnd 0 1000000 silentNext plainReq).slow = true
    ∧ ((1000000 : Int) - 0 < 200 * 1000000) := by
  refine ⟨by decide, by decide⟩

/-- A downstream that writes a 204 status and then 5 body bytes. -/
def writingNext : OpsHandler := fun _ => [WOp.writeHeader 204, WOp.write 5]

/-- C7 (code bug). The log entry's status does follow the downstream's
`WriteHeader`, but its size field stays 0 even though the downstream wrote 5
bytes (which did reach the wrapped writer): `statusRecorder` never overrides
`Write`, so the promoted method bypasses the `size` field. -/
theorem Log_size_stays_zero :
    (Log someRnd 0 0 writingNext plainReq).entry.status = 204
    ∧ (Log someRnd 0 0 writingNext plainReq).entry.size = 0
    ∧ (Log someRnd 0 0 writingNext plainReq).under.bytes = 5 := by
  refine ⟨by decide, by decide, by decide⟩

/-- `true` iff the downstream never calls `WriteHeader`. -/
def noWriteHeaderCalls (ops : List WOp) : Bool :=
  ops.all (fun op => match op with
    | WOp.writeHeader _ => false
    | WOp.write _ => true)

lemma runOps_status_of_no_writeHeader (ops : List WOp)
    (rec : statusRecorder) (un : UnderWriter)
    (h : noWriteHeaderCalls ops = true) :
    (runOps (rec, un) ops).1.status = rec.status := by
  induction ops generalizing rec un with
  | nil => rfl
  | cons op rest ih =>
    cases op with
    | writeHeader c => simp [noWriteHeaderCalls] at h
    | write n =>
      have hrest : noWriteHeaderCalls rest = true := by
        simpa [noWriteHeaderCalls] using h
      simpa [runOps, recStep] using ih rec { un with bytes := un.bytes + n } hrest

/-- C10. If the downstream never calls `WriteHeader`, the access-log entry
reports status 200: the `statusRecorder` is initialised with status 200 and
only `WriteHeader` changes it, matching Go's implicit-200 semantics. -/
theorem Log_implicit_200 (rnd : List Nat) (t0 t1 : Int) (next : OpsHandler)
    (r : Request) (h : noWriteHeaderCalls (next r) = true) :
    (Log rnd t0 t1 next r).entry.status = 200 := by
  have hproj : (Log rnd t0 t1 next r).entry.status
      = (runOps ({ status := 200, size := 0 }, { statusHist := [], bytes := 0 })
          (next r)).1.status := rfl
  rw [hproj]
  exact runOps_status_of_no_writeHeader (next r) _ _ h

/-- A downstream that writes body bytes but never a status. -/
def writeOnlyNext : OpsHandler := fun _ => [WOp.write 3]

/-- Witness for C10 at a concrete downstream that only writes body bytes. -/
theorem Log_implicit_200_witness :
    noWriteHeaderCalls (writeOnlyNext plainReq) = true
    ∧ (Log someRnd 0 0 writeOnlyNext plainReq).entry.status = 200 :=
  ⟨by decide, Log_implicit_200 someRnd 0 0 writeOnlyNext plainReq (by decide)⟩

/-! ## TLS-path static handlers (`Index`, `serveStaticFS`) -/

/-- `strings.HasPrefix`. -/
def hasPrefixGo (s pre : String) : Bool :=
  pre.toList.isPrefixOf s.toList

/-- `path.Base`: `"."` for the empty path; otherwise strip trailing slashes
and keep everything after the last remaining slash; all-slash input gives
`"/"`. -/
def pathBase (p : String) : String :=
  if p = "" then "."
  else
    let cs := p.toList.reverse.dropWhile (fun c => c = '/')
    if cs = [] then "/"
    else String.mk ((cs.takeWhile (fun c => c ≠ '/')).reverse)

/-- `http.FileServer(http.FS(fsys)).ServeHTTP` with `r.URL.Path = name`: the
external static file collaborator; the embedding records that it was invoked
for `name`. -/
def fsServe (w : Resp) (name : String) : Resp :=
  { w with served := w.served ++ [name] }

/-- `serveStaticFS`: switch on the base name — `robots.txt` gets cache-control
and a plain-text content type, `security.txt` a plain-text content type, any
other base name returns without serving; the two named files then go to the
file server. -/
def serveStaticFS (_r : Request) (w : Resp) (name : String) : Resp :=
  let wkf := pathBase name
  if wkf = "robots.txt" then
    let w := setHeader w "Cache-Control" "max-age=300"
    let w := setHeader w "Content-Type" "text/plain; charset=utf-8"
    fsServe w name
  else if wkf = "security.txt" then
    let w := setHeader w "Content-Type" "text/plain; charset=utf-8"
    fsServe w name
  else w

/-- `Index`: the TLS-path root handler. The ACME-challenge check calls
`http.NotFound` but does not return, so control always falls through to
`serveStaticFS` afterwards. -/
def Index (r : Request) (w : Resp) : Resp :=
  let w := if hasPrefixGo r.url.path "/.well-known/acme-challenge/" then
    notFound w else w
  serveStaticFS r w r.url.path

/-- A request for `robots.txt` under the ACME challenge path. -/
def acmeRobotsReq : Request :=
  { method := "GET"
    url := { scheme := "", host := "",
             path := "/.well-known/acme-challenge/robots.txt", rawQuery := "" }
    host := "bwsd.net"
    tls := true
    proto := "HTTP/1.1"
    headers := []
    userAgent := ""
    referer := ""
    basicAuth := none
    remoteAddr := "203.0.113.7:52044" }

/-- C9 (code bug). For the challenge-path request
`/.well-known/acme-challenge/robots.txt`, `Index` writes the explicit 404 but
— because the `http.NotFound` branch does not return — still falls through to
`serveStaticFS`, which matches the `robots.txt` base name and invokes the
static file server for that same request. -/
theorem Index_acme_still_serves :
    (Index acmeRobotsReq Resp.empty).statusHist = [404]
    ∧ (Index acmeRobotsReq Resp.empty).served
        = ["/.well-known/acme-challenge/robots.txt"] := by
  refine ⟨by decide, by decide⟩

/-! ## Self-signed certificate validity window (`selfSignedX509`) -/

/-- One minute, in nanoseconds (`time.Minute`). -/
def minuteNs : Int := 60 * 1000000000

/-- One day, in nanoseconds (`24 * time.Hour`). -/
def dayNs : Int := 86400 * 1000000000

/-- A certificate validity window. -/
structure CertTimes where
  notBefore : Int
  notAfter : Int
deriving DecidableEq

/-- The validity window of the certificate template built by
`selfSignedX509`: the source calls `time.Now()` twice, setting `NotBefore`
one minute before the first sample (`now1`) and `NotAfter` seven days after
the second sample (`now2`). -/
def selfSignedX509Times (now1 now2 : Int) : CertTimes :=
  { notBefore := now1 - minuteNs, notAfter := now2 + 7 * dayNs }

/-- C8 counterexample: even when the two clock samples coincide, `NotAfter`
is not `NotBefore + 7 days` — it exceeds it by the one-minute backdating. -/
theorem selfSignedX509Times_not_notBefore_plus_7d :
    ¬ ((selfSignedX509Times 0 0).notAfter
        = (selfSignedX509Times 0 0).notBefore + 7 * dayNs) := by
  decide

/-- C8 (amended). `NotBefore` is one minute before the first clock sample
(hence at most `now`), and `NotAfter` is seven days after the second clock
sample, i.e. `NotBefore + 7 days + 1 minute` plus the lag between the two
samples. -/
theorem selfSignedX509Times_window (now1 now2 : Int) :
    (selfSignedX509Times now1 now2).notBefore ≤ now1
    ∧ (selfSignedX509Times now1 now2).notAfter
        = (selfSignedX509Times now1 now2).notBefore + 7 * dayNs + minuteNs
            + (now2 - now1) := by
  constructor
  · simp only [selfSignedX509Times, minuteNs, dayNs]; omega
  · simp only [selfSignedX509Times, minuteNs, dayNs]; omega

end Web
